import Mathlib

/-!
Shallow embedding of the Sprig VS Code extension source (src/extension.ts):
the persistence accessor (class SprigManager, methods executeQuery,
searchItems, saveItem) and the external application locator and launcher
(the sprig.openBrowser command handler, with its fileExists helper,
possiblePaths candidate list, PATH lookup and spawn call).

Database rows are modelled as records whose fields mirror the columns of
the items table; the SQLite engine is modelled by a Store (list of rows, a
next rowid, a clock supplying the value of the datetime-now expression) and
a DbStatus describing whether the driver loads, the database opens and the
query runs.  The locator is modelled over an environment recording the
outcome of each filesystem probe, of the two PATH lookups and of the spawn
call.
-/

namespace Sprig

/-- A row of the items table as the desktop database holds it.  The field
named rtype mirrors the column named type; it is a raw string, since the
store itself never checks it against the four declared values. -/
structure Row where
  id : Nat
  title : String
  content : String
  language : String
  rtype : String
  tags : Option String
  created_at : Nat
deriving Repr, DecidableEq

/-- The argument of saveItem: the TypeScript type Omit of SprigItem minus
id, so a caller may still carry a created_at field, which the INSERT
statement ignores. -/
structure ItemInput where
  title : String
  content : String
  language : String
  rtype : String
  tags : Option String
  created_at : Option Nat
deriving Repr, DecidableEq

/-- Outcome of the database machinery around one executeQuery call:
require of the driver, the Database constructor callback, and the db.all
callback. -/
inductive DbStatus where
  | ok
  | loadFailed (msg : String)
  | openFailed (msg : String)
  | queryFailed (msg : String)
deriving Repr, DecidableEq

/-- The state of the file-backed store. -/
structure Store where
  rows : List Row
  nextId : Nat
  clock : Nat
deriving Repr, DecidableEq

/-- The error message executeQuery rejects with, per failure mode. -/
def dbError : DbStatus → Option String
  | DbStatus.ok => none
  | DbStatus.loadFailed m => some ("Failed to load sqlite3: " ++ m)
  | DbStatus.openFailed m => some ("Failed to open database: " ++ m)
  | DbStatus.queryFailed m => some ("Database query failed: " ++ m)

/-- The comparison realised by ORDER BY created_at DESC: a row sorts before
another when its created_at is at least as large. -/
def createdDesc (a b : Row) : Bool :=
  decide (b.created_at ≤ a.created_at)

/-- Result set of the fixed SELECT statement: every row of the table,
ordered by created_at descending. -/
def selectAllOrdered (st : Store) : List Row :=
  st.rows.mergeSort createdDesc

/-- executeQuery applied to the SELECT statement of searchItems: rejects
with the error message when any stage fails, otherwise resolves with the
ordered rows. -/
def executeQuerySelect (status : DbStatus) (st : Store) : Except String (List Row) :=
  match dbError status with
  | some e => Except.error e
  | none => Except.ok (selectAllOrdered st)

/-- The row the INSERT statement writes: the five parameters from the
input, an id assigned by the store, and created_at from the datetime-now
expression, i.e. the store clock.  The created_at field of the input is not
among the statement parameters. -/
def insertedRow (st : Store) (inp : ItemInput) : Row :=
  { id := st.nextId, title := inp.title, content := inp.content,
    language := inp.language, rtype := inp.rtype, tags := inp.tags,
    created_at := st.clock }

/-- Effect of the INSERT statement on the store: one row appended, next
rowid advanced. -/
def insertRow (st : Store) (inp : ItemInput) : Store :=
  { rows := st.rows ++ [insertedRow st inp], nextId := st.nextId + 1,
    clock := st.clock }

/-- executeQuery applied to the INSERT statement of saveItem. -/
def executeQueryInsert (status : DbStatus) (st : Store) (inp : ItemInput) :
    Except String Store :=
  match dbError status with
  | some e => Except.error e
  | none => Except.ok (insertRow st inp)

/-- searchItems: await the SELECT inside try, return the rows; on any
thrown error return the empty list. -/
def searchItems (status : DbStatus) (st : Store) : List Row :=
  match executeQuerySelect status st with
  | Except.ok rows => rows
  | Except.error _ => []

/-- saveItem: await the INSERT inside try; the catch block rethrows the
error unchanged. -/
def saveItem (status : DbStatus) (st : Store) (inp : ItemInput) :
    Except String Store :=
  match executeQueryInsert status st inp with
  | Except.ok st2 => Except.ok st2
  | Except.error e => Except.error e

/-- saveItem instrumented with a counter bumped once per executeQuery
call, to state how many database attempts one saveItem call makes. -/
def saveItemCounted (status : DbStatus) (st : Store) (inp : ItemInput) :
    Except String Store × Nat :=
  (executeQueryInsert status st inp, 0 + 1)

/-- The four values of the declared item type union. -/
def validType (s : String) : Bool :=
  s == "snippet" || s == "template" || s == "function" || s == "component"

/-- fileExists: fs.access reported through a callback that resolves with
the negation of the error argument; accessErr gives the error, if any, per
path. -/
def fileExists (accessErr : String → Option String) (p : String) : Bool :=
  match accessErr p with
  | some _ => false
  | none => true

/-- The for loop over the candidate paths: probe each in order, stop at
the first that exists.  Also returns how many probes were made. -/
def scanPaths (probe : String → Bool) : List String → Option String × Nat
  | [] => (none, 0)
  | p :: ps =>
    if probe p then (some p, 1)
    else
      let r := scanPaths probe ps
      (r.1, r.2 + 1)

/-- path.join on the Windows separator. -/
def joinPath (parts : List String) : String :=
  String.intercalate "\\" parts

/-- The ordered candidate list of the locator. -/
def possiblePaths (homedir : String) : List String :=
  [ joinPath ["C:", "Program Files", "Sprig", "Sprig.exe"],
    joinPath ["C:", "Program Files (x86)", "Sprig", "Sprig.exe"],
    joinPath ["C:", "Program Files", "Sprig", "sprig.exe"],
    joinPath ["C:", "Program Files (x86)", "Sprig", "sprig.exe"],
    joinPath [homedir, "AppData", "Local", "Sprig", "Sprig.exe"],
    joinPath [homedir, "Desktop", "Sprig.exe"] ]

/-- Environment of one sprig.openBrowser run: the filesystem probe
outcomes, the two where.exe lookups (some path when the command succeeded
with nonempty output, already trimmed to its first line), whether the
spawn call throws, and whether a development-mode marker file would exist
(recorded so that theorems can speak about it; the handler never reads
it). -/
structure LaunchEnv where
  accessErr : String → Option String
  whereUpper : Option String
  whereLower : Option String
  spawnErr : Option String
  devMarker : Bool

/-- Terminal state of one sprig.openBrowser run. -/
inductive Outcome where
  | launched
  | launchFailed
  | promptDownload
deriving Repr, DecidableEq

/-- Observable result of one sprig.openBrowser run: terminal state, the
resolved path, how many spawn attempts were made, which launch strategies
were tried (the handler has a single strategy, numbered 1: spawn through a
shell), and the user-visible notifications. -/
structure RunResult where
  outcome : Outcome
  sprigPath : Option String
  spawnAttempts : Nat
  strategiesTried : List Nat
  successNotes : Nat
  errorNotes : Nat
  downloadPromptShown : Bool
deriving Repr, DecidableEq

/-- Path resolution of sprig.openBrowser: first the candidate scan, then
where.exe on the canonical name, then on the lowercase name. -/
def resolveSprigPath (env : LaunchEnv) (homedir : String) : Option String :=
  match (scanPaths (fileExists env.accessErr) (possiblePaths homedir)).1 with
  | some p => some p
  | none =>
    match env.whereUpper with
    | some s => some s
    | none => env.whereLower

/-- The sprig.openBrowser handler after path resolution: when a path was
found, one spawn through a shell inside try, with one info message on
success and one error message in the catch; when none was found, the
download prompt. -/
def openBrowser (env : LaunchEnv) (homedir : String) : RunResult :=
  match resolveSprigPath env homedir with
  | some p =>
    match env.spawnErr with
    | none =>
      { outcome := Outcome.launched, sprigPath := some p, spawnAttempts := 1,
        strategiesTried := [1], successNotes := 1, errorNotes := 0,
        downloadPromptShown := false }
    | some _ =>
      { outcome := Outcome.launchFailed, sprigPath := some p, spawnAttempts := 1,
        strategiesTried := [1], successNotes := 0, errorNotes := 1,
        downloadPromptShown := false }
  | none =>
    { outcome := Outcome.promptDownload, sprigPath := none, spawnAttempts := 0,
      strategiesTried := [], successNotes := 0, errorNotes := 0,
      downloadPromptShown := true }

/-- Concrete store and input used by witnesses. -/
def demoStore : Store :=
  { rows := [], nextId := 0, clock := 7 }

/-- Concrete input mirroring the example of the spec. -/
def demoInput : ItemInput :=
  { title := "clamp", content := "x=Math.min(Math.max(x,lo),hi)",
    language := "javascript", rtype := "function",
    tags := some "math,util", created_at := none }

/-- A store holding one row whose type column is outside the declared
union and whose tags column is NULL. -/
def badRow : Row :=
  { id := 3, title := "t", content := "c", language := "l",
    rtype := "blob", tags := none, created_at := 5 }

/-- Store around badRow. -/
def badStore : Store :=
  { rows := [badRow], nextId := 4, clock := 9 }

/-- Launch environment where the first candidate exists and the spawn call
throws. -/
def failSpawnEnv : LaunchEnv :=
  { accessErr := fun _ => none, whereUpper := none, whereLower := none,
    spawnErr := some "spawn failed", devMarker := false }

/-- Launch environment where nothing is found anywhere, yet a
development-mode marker file exists. -/
def devMarkerEnv : LaunchEnv :=
  { accessErr := fun _ => some "ENOENT", whereUpper := none,
    whereLower := none, spawnErr := none, devMarker := true }

/-- Launch environment where nothing is found and no marker exists. -/
def nothingFoundEnv : LaunchEnv :=
  { accessErr := fun _ => some "ENOENT", whereUpper := none,
    whereLower := none, spawnErr := none, devMarker := false }

/-- Probe used by the candidate-scan witness: only the second candidate
exists. -/
def probeSecond (s : String) : Bool :=
  s == joinPath ["C:", "Program Files (x86)", "Sprig", "Sprig.exe"]

/-- The comparison createdDesc is transitive. -/
theorem createdDesc_trans :
    ∀ a b c : Row, createdDesc a b = true → createdDesc b c = true →
      createdDesc a c = true := by
  intro a b c h1 h2
  simp only [createdDesc, decide_eq_true_eq] at h1 h2 ⊢
  omega

/-- The comparison createdDesc is total. -/
theorem createdDesc_total :
    ∀ a b : Row, (createdDesc a b || createdDesc b a) = true := by
  intro a b
  simp only [createdDesc, Bool.or_eq_true, decide_eq_true_eq]
  omega

/-- The path the scan returns is the first satisfying the probe. -/
theorem scanPaths_fst (probe : String → Bool) (l : List String) :
    (scanPaths probe l).1 = l.find? probe := by
  induction l with
  | nil => rfl
  | cons p ps ih =>
    by_cases h : probe p
    · simp [scanPaths, h, List.find?_cons_of_pos]
    · simp [scanPaths, h, List.find?_cons_of_neg, ih]

/-- The scan never probes more paths than the list holds. -/
theorem scanPaths_snd_le (probe : String → Bool) (l : List String) :
    (scanPaths probe l).2 ≤ l.length := by
  induction l with
  | nil => simp [scanPaths]
  | cons p ps ih =>
    by_cases h : probe p
    · simp [scanPaths, h]
    · simp [scanPaths, h]
      omega

/-- When a prefix of failing candidates is followed by an existing one,
the scan stops right there: the probe count is the prefix length plus
one. -/
theorem scanPaths_stops (probe : String → Bool) (l1 : List String)
    (p : String) (l2 : List String) (hl1 : ∀ x ∈ l1, probe x = false)
    (hp : probe p = true) :
    (scanPaths probe (l1 ++ p :: l2)).2 = l1.length + 1 := by
  induction l1 with
  | nil => simp [scanPaths, hp]
  | cons q qs ih =>
    have hq : probe q = false := hl1 q (by simp)
    have hqs : ∀ x ∈ qs, probe x = false := fun x hx => hl1 x (by simp [hx])
    simp [scanPaths, hq, ih hqs]

/-- When no candidate exists the scan probes the whole list. -/
theorem scanPaths_all_fail (probe : String → Bool) (l : List String)
    (h : ∀ x ∈ l, probe x = false) :
    (scanPaths probe l).2 = l.length := by
  induction l with
  | nil => rfl
  | cons p ps ih =>
    have hp : probe p = false := h p (by simp)
    have hps : ∀ x ∈ ps, probe x = false := fun x hx => h x (by simp [hx])
    simp [scanPaths, hp, ih hps]

/-- C6: over any ordered candidate list and any existence probe, the scan
returns the first existing path, stops at the first match (a failing
prefix of length k means exactly k plus one probes), and performs at most
as many probes as there are candidates. -/
theorem scan_first_match_bounded (probe : String → Bool) (l : List String) :
    (scanPaths probe l).1 = l.find? probe ∧
    (scanPaths probe l).2 ≤ l.length ∧
    (∀ l1 p l2, l = l1 ++ p :: l2 → (∀ x ∈ l1, probe x = false) →
      probe p = true → (scanPaths probe l).2 = l1.length + 1) ∧
    ((∀ x ∈ l, probe x = false) → (scanPaths probe l).2 = l.length) := by
  refine ⟨scanPaths_fst probe l, scanPaths_snd_le probe l, ?_, ?_⟩
  · intro l1 p l2 hsplit hl1 hp
    rw [hsplit]
    exact scanPaths_stops probe l1 p l2 hl1 hp
  · intro h
    exact scanPaths_all_fail probe l h

/-- C6 witness: on the concrete candidate list of the locator with a probe
satisfied only by the second candidate, the scan finds that candidate with
exactly two probes. -/
theorem scan_first_match_bounded_witness :
    (scanPaths probeSecond (possiblePaths "h")).1 =
      some (joinPath ["C:", "Program Files (x86)", "Sprig", "Sprig.exe"]) ∧
    (scanPaths probeSecond (possiblePaths "h")).2 =
      [joinPath ["C:", "Program Files", "Sprig", "Sprig.exe"]].length + 1 := by
  have h := scan_first_match_bounded probeSecond (possiblePaths "h")
  refine ⟨?_, ?_⟩
  · rw [h.1]
    decide
  · exact h.2.2.1 [joinPath ["C:", "Program Files", "Sprig", "Sprig.exe"]]
      (joinPath ["C:", "Program Files (x86)", "Sprig", "Sprig.exe"])
      [joinPath ["C:", "Program Files", "Sprig", "sprig.exe"],
       joinPath ["C:", "Program Files (x86)", "Sprig", "sprig.exe"],
       joinPath ["h", "AppData", "Local", "Sprig", "Sprig.exe"],
       joinPath ["h", "Desktop", "Sprig.exe"]]
      rfl (by decide) (by decide)

/-- C9: the existence probe is total with a boolean outcome: it reports
true exactly when the filesystem access reports no error, and any access
error is reported as not found rather than propagated. -/
theorem fileExists_total_error_is_false (f : String → Option String)
    (p : String) :
    (fileExists f p = true ↔ f p = none) ∧
    (∀ e, f p = some e → fileExists f p = false) := by
  constructor
  · cases h : f p <;> simp [fileExists, h]
  · intro e he
    simp [fileExists, he]

/-- C9 witness: a probe whose filesystem access errors reports false. -/
theorem fileExists_total_error_is_false_witness :
    fileExists (fun _ => some "EACCES") "C:\\x" = false :=
  (fileExists_total_error_is_false (fun _ => some "EACCES") "C:\\x").2
    "EACCES" rfl

/-- C2: searchItems never throws: under any failing status (driver load,
open or query failure) it returns the empty list, and under the ok status
it returns the rows sorted by created_at descending. -/
theorem searchItems_total_sorted (status : DbStatus) (st : Store) :
    searchItems status st =
      (match status with
       | DbStatus.ok => st.rows.mergeSort createdDesc
       | _ => []) ∧
    List.Pairwise (fun a b => createdDesc a b = true)
      (searchItems status st) := by
  cases status with
  | ok =>
    refine ⟨rfl, ?_⟩
    have h := @List.sorted_mergeSort Row createdDesc createdDesc_trans
      createdDesc_total st.rows
    simpa [searchItems, executeQuerySelect, dbError, selectAllOrdered] using h
  | loadFailed m => exact ⟨rfl, by simp [searchItems, executeQuerySelect, dbError]⟩
  | openFailed m => exact ⟨rfl, by simp [searchItems, executeQuerySelect, dbError]⟩
  | queryFailed m => exact ⟨rfl, by simp [searchItems, executeQuerySelect, dbError]⟩

/-- C3: saveItem makes exactly one database attempt and either succeeds,
having appended exactly one row whose timestamp is the store clock, or
rethrows exactly the error of its single executeQuery call. -/
theorem saveItem_single_attempt_propagates (status : DbStatus) (st : Store)
    (inp : ItemInput) :
    saveItem status st inp = executeQueryInsert status st inp ∧
    (saveItemCounted status st inp).2 = 1 ∧
    (∀ e, dbError status = some e →
      saveItem status st inp = Except.error e) ∧
    (dbError status = none →
      saveItem status st inp = Except.ok (insertRow st inp) ∧
      (insertRow st inp).rows.length = st.rows.length + 1 ∧
      (insertedRow st inp).created_at = st.clock) := by
  refine ⟨?_, rfl, ?_, ?_⟩
  · cases h : executeQueryInsert status st inp <;> simp [saveItem, h]
  · intro e he
    simp [saveItem, executeQueryInsert, he]
  · intro hnone
    refine ⟨by simp [saveItem, executeQueryInsert, hnone], ?_, rfl⟩
    simp [insertRow]

/-- C3 witness: with an unopenable store the save rethrows the open
error; with a healthy store it succeeds and grows the table by one row. -/
theorem saveItem_single_attempt_propagates_witness :
    saveItem (DbStatus.openFailed "disk") demoStore demoInput =
      Except.error ("Failed to open database: " ++ "disk") ∧
    (saveItemCounted (DbStatus.openFailed "disk") demoStore demoInput).2 = 1 ∧
    saveItem DbStatus.ok demoStore demoInput =
      Except.ok (insertRow demoStore demoInput) ∧
    (insertRow demoStore demoInput).rows.length =
      demoStore.rows.length + 1 := by
  have hbad := saveItem_single_attempt_propagates (DbStatus.openFailed "disk")
    demoStore demoInput
  have hok := saveItem_single_attempt_propagates DbStatus.ok demoStore demoInput
  have hok2 := hok.2.2.2 rfl
  exact ⟨hbad.2.2.1 ("Failed to open database: " ++ "disk") rfl,
    hbad.2.1, hok2.1, hok2.2.1⟩

/-- C8: the inserted row takes its id from the store rowid and its
created_at from the store clock; a client-supplied created_at in the input
has no effect, and a successful save writes exactly the store-assigned
row. -/
theorem insert_fields_store_assigned (status : DbStatus) (st st2 : Store)
    (inp : ItemInput) :
    (insertedRow st inp).id = st.nextId ∧
    (insertedRow st inp).created_at = st.clock ∧
    (∀ c, insertedRow st { inp with created_at := c } = insertedRow st inp) ∧
    (saveItem status st inp = Except.ok st2 →
      st2.rows = st.rows ++ [insertedRow st inp] ∧
      st2.nextId = st.nextId + 1) := by
  refine ⟨rfl, rfl, fun c => rfl, ?_⟩
  intro hok
  cases status with
  | ok =>
    have h2 : st2 = insertRow st inp := by
      simpa [saveItem, executeQueryInsert, dbError] using hok.symm
    subst h2
    exact ⟨rfl, rfl⟩
  | loadFailed m => simp [saveItem, executeQueryInsert, dbError] at hok
  | openFailed m => simp [saveItem, executeQueryInsert, dbError] at hok
  | queryFailed m => simp [saveItem, executeQueryInsert, dbError] at hok

/-- C8 witness: the concrete demo save writes id zero (the store rowid)
and created_at seven (the store clock), whatever the input carried. -/
theorem insert_fields_store_assigned_witness :
    (insertedRow demoStore demoInput).id = demoStore.nextId ∧
    (insertedRow demoStore demoInput).created_at = demoStore.clock ∧
    insertedRow demoStore { demoInput with created_at := some 999 } =
      insertedRow demoStore demoInput ∧
    (insertRow demoStore demoInput).rows =
      demoStore.rows ++ [insertedRow demoStore demoInput] := by
  have h := insert_fields_store_assigned DbStatus.ok demoStore
    (insertRow demoStore demoInput) demoInput
  have h4 := h.2.2.2 (by rfl)
  exact ⟨h.1, h.2.1, h.2.2.1 (some 999), h4.1⟩

/-- C10: searchItems returns the result set of the SELECT unchanged: what
the store hands back is what callers receive, a permutation of the whole
table with no row filtered, checked or transformed, even rows whose type
column lies outside the declared union. -/
theorem searchItems_passthrough (st : Store) (rows : List Row) :
    (executeQuerySelect DbStatus.ok st = Except.ok rows →
      searchItems DbStatus.ok st = rows) ∧
    (searchItems DbStatus.ok st).Perm st.rows ∧
    (∀ r ∈ st.rows, r ∈ searchItems DbStatus.ok st) := by
  have hs : searchItems DbStatus.ok st = st.rows.mergeSort createdDesc := rfl
  refine ⟨?_, ?_, ?_⟩
  · intro h
    simp [searchItems, h]
  · rw [hs]
    exact List.mergeSort_perm st.rows createdDesc
  · intro r hr
    rw [hs]
    exact ((List.mergeSort_perm st.rows createdDesc).mem_iff).mpr hr

/-- C10 witness: a stored row with type blob, outside the declared union,
and a NULL tags column is returned to callers as is. -/
theorem searchItems_passthrough_witness :
    searchItems DbStatus.ok badStore = [badRow] ∧
    validType badRow.rtype = false := by
  refine ⟨(searchItems_passthrough badStore [badRow]).1 ?_, by decide⟩
  simp [executeQuerySelect, dbError, selectAllOrdered, badStore]

/-- C4 counterexample: with the first candidate present and the spawn call
throwing, the handler tries no second or third launch strategy: the failed
shell spawn is the only attempt, the run ends in the failure state with an
error message and no success notification.  There is no three-strategy
fallback chain in the handler. -/
theorem launch_no_fallback_chain :
    (openBrowser failSpawnEnv "h").strategiesTried = [1] ∧
    2 ∉ (openBrowser failSpawnEnv "h").strategiesTried ∧
    3 ∉ (openBrowser failSpawnEnv "h").strategiesTried ∧
    (openBrowser failSpawnEnv "h").outcome = Outcome.launchFailed ∧
    (openBrowser failSpawnEnv "h").successNotes = 0 ∧
    (openBrowser failSpawnEnv "h").errorNotes = 1 := by
  decide

/-- C4 amended: when a path was found the handler attempts exactly one
launch strategy, a spawn through a shell; the outcome is notified to the
user exactly once: one success message when the spawn does not throw, one
error message when it does. -/
theorem launch_single_strategy_single_note (env : LaunchEnv)
    (homedir : String) (p : String)
    (hfound : resolveSprigPath env homedir = some p) :
    (openBrowser env homedir).spawnAttempts = 1 ∧
    (openBrowser env homedir).strategiesTried = [1] ∧
    (openBrowser env homedir).successNotes +
      (openBrowser env homedir).errorNotes = 1 ∧
    (openBrowser env homedir).downloadPromptShown = false ∧
    (env.spawnErr = none →
      (openBrowser env homedir).outcome = Outcome.launched ∧
      (openBrowser env homedir).successNotes = 1) ∧
    (∀ e, env.spawnErr = some e →
      (openBrowser env homedir).outcome = Outcome.launchFailed ∧
      (openBrowser env homedir).errorNotes = 1) := by
  cases hsp : env.spawnErr with
  | none =>
    refine ⟨?_, ?_, ?_, ?_, ?_, ?_⟩ <;>
      simp [openBrowser, hfound, hsp]
  | some e =>
    refine ⟨?_, ?_, ?_, ?_, ?_, ?_⟩ <;>
      simp [openBrowser, hfound, hsp]

/-- C4 witness: in the failing-spawn environment the path resolves, one
strategy is tried and exactly one notification is produced. -/
theorem launch_single_strategy_single_note_witness :
    (openBrowser failSpawnEnv "h").spawnAttempts = 1 ∧
    (openBrowser failSpawnEnv "h").successNotes +
      (openBrowser failSpawnEnv "h").errorNotes = 1 ∧
    (openBrowser failSpawnEnv "h").outcome = Outcome.launchFailed := by
  have h := launch_single_strategy_single_note failSpawnEnv "h"
    (joinPath ["C:", "Program Files", "Sprig", "Sprig.exe"]) (by decide)
  exact ⟨h.1, h.2.2.1, (h.2.2.2.2.2 "spawn failed" rfl).1⟩

/-- C5 counterexample: with no candidate found, no PATH hit, and a
development-mode marker present, the handler still ends in the download
prompt with no launch attempt: no run-from-source state is ever entered
and the marker is never consulted. -/
theorem dev_marker_not_checked :
    devMarkerEnv.devMarker = true ∧
    (openBrowser devMarkerEnv "h").outcome = Outcome.promptDownload ∧
    (openBrowser devMarkerEnv "h").spawnAttempts = 0 ∧
    (openBrowser devMarkerEnv "h").downloadPromptShown = true := by
  decide

/-- C5 amended: when neither the candidate scan nor the PATH lookup finds
the executable, the handler goes straight to the download prompt; no
development-mode marker check exists, and the state of any such marker
never changes the result of the run. -/
theorem no_dev_mode_branch (env : LaunchEnv) (homedir : String)
    (hnone : resolveSprigPath env homedir = none) :
    (openBrowser env homedir).outcome = Outcome.promptDownload ∧
    (openBrowser env homedir).spawnAttempts = 0 ∧
    (openBrowser env homedir).downloadPromptShown = true ∧
    (∀ b, openBrowser { env with devMarker := b } homedir =
      openBrowser env homedir) := by
  refine ⟨?_, ?_, ?_, fun b => rfl⟩ <;> simp [openBrowser, hnone]

/-- C5 witness: in the marker-present environment nothing resolves, so
the download prompt is the outcome and flipping the marker changes
nothing. -/
theorem no_dev_mode_branch_witness :
    (openBrowser devMarkerEnv "h").outcome = Outcome.promptDownload ∧
    openBrowser { devMarkerEnv with devMarker := false } "h" =
      openBrowser devMarkerEnv "h" := by
  have h := no_dev_mode_branch devMarkerEnv "h" (by decide)
  exact ⟨h.1, h.2.2.2 false⟩

/-- C7: when no candidate path exists, both PATH lookups come back empty
and no marker is present, the run is exactly the download-prompt terminal
state: the prompt is shown and no spawn, no strategy and no launch
notification occurs. -/
theorem not_found_prompts_download (env : LaunchEnv) (homedir : String)
    (hprobe : ∀ p, fileExists env.accessErr p = false)
    (hup : env.whereUpper = none) (hlo : env.whereLower = none)
    (_hdev : env.devMarker = false) :
    (openBrowser env homedir).outcome = Outcome.promptDownload ∧
    (openBrowser env homedir).downloadPromptShown = true ∧
    (openBrowser env homedir).spawnAttempts = 0 ∧
    (openBrowser env homedir).strategiesTried = [] ∧
    (openBrowser env homedir).successNotes = 0 ∧
    (openBrowser env homedir).errorNotes = 0 := by
  have hfind : (possiblePaths homedir).find? (fileExists env.accessErr) = none :=
    List.find?_eq_none.mpr (fun x _ => by simp [hprobe x])
  have hres : resolveSprigPath env homedir = none := by
    simp [resolveSprigPath, scanPaths_fst, hfind, hup, hlo]
  refine ⟨?_, ?_, ?_, ?_, ?_, ?_⟩ <;> simp [openBrowser, hres]

/-- C7 witness: in the environment where every probe errors and both
lookups are empty, the run ends in the download prompt with no spawn. -/
theorem not_found_prompts_download_witness :
    (openBrowser nothingFoundEnv "h").outcome = Outcome.promptDownload ∧
    (openBrowser nothingFoundEnv "h").spawnAttempts = 0 ∧
    (openBrowser nothingFoundEnv "h").downloadPromptShown = true := by
  have h := not_found_prompts_download nothingFoundEnv "h"
    (fun p => rfl) rfl rfl rfl
  exact ⟨h.1, h.2.2.1, h.2.1⟩

/-- Sorting a table after appending a row strictly fresher than every
existing row puts that row first. -/
theorem head_mergeSort_fresh (rows : List Row) (n : Row)
    (hfresh : ∀ r ∈ rows, r.created_at < n.created_at) :
    ((rows ++ [n]).mergeSort createdDesc).head? = some n := by
  have hperm := List.mergeSort_perm (rows ++ [n]) createdDesc
  have hmem : n ∈ (rows ++ [n]).mergeSort createdDesc :=
    hperm.mem_iff.mpr (by simp)
  have hsorted := @List.sorted_mergeSort Row createdDesc createdDesc_trans
    createdDesc_total (rows ++ [n])
  cases hout : (rows ++ [n]).mergeSort createdDesc with
  | nil => simp [hout] at hmem
  | cons h t =>
    rw [hout] at hmem hsorted hperm
    have hall := (List.pairwise_cons.mp hsorted).1
    have hh : h ∈ rows ++ [n] := hperm.mem_iff.mp (by simp)
    rcases List.mem_cons.mp hmem with heq | hmem_t
    · simp [heq]
    · have h1 : n.created_at ≤ h.created_at := by
        have h2 := hall n hmem_t
        simpa [createdDesc] using h2
      rcases List.mem_append.mp hh with hr | hn
      · have h3 := hfresh h hr
        omega
      · have h4 : h = n := by simpa using hn
        simp [h4]

/-- C1: against a healthy store whose existing rows carry older
timestamps and smaller rowids, saveItem succeeds and a following
searchItems returns a sequence holding exactly one row with the new rowid;
that row carries exactly the saved title, content, language, type and
tags, its created_at is the store clock, no row in the sequence is more
recent, and the new row is returned first. -/
theorem save_then_list_new_item_first (st : Store) (inp : ItemInput)
    (hfresh : ∀ r ∈ st.rows, r.created_at < st.clock)
    (hid : ∀ r ∈ st.rows, r.id ≠ st.nextId) :
    saveItem DbStatus.ok st inp = Except.ok (insertRow st inp) ∧
    (searchItems DbStatus.ok (insertRow st inp)).head? =
      some (insertedRow st inp) ∧
    (searchItems DbStatus.ok (insertRow st inp)).countP
      (fun r => r.id == st.nextId) = 1 ∧
    (insertedRow st inp).title = inp.title ∧
    (insertedRow st inp).content = inp.content ∧
    (insertedRow st inp).language = inp.language ∧
    (insertedRow st inp).rtype = inp.rtype ∧
    (insertedRow st inp).tags = inp.tags ∧
    (insertedRow st inp).created_at = st.clock ∧
    (∀ r ∈ searchItems DbStatus.ok (insertRow st inp),
      r.created_at ≤ (insertedRow st inp).created_at) := by
  have hs : searchItems DbStatus.ok (insertRow st inp) =
      (st.rows ++ [insertedRow st inp]).mergeSort createdDesc := rfl
  have hperm := List.mergeSort_perm (st.rows ++ [insertedRow st inp])
    createdDesc
  refine ⟨rfl, ?_, ?_, rfl, rfl, rfl, rfl, rfl, rfl, ?_⟩
  · rw [hs]
    exact head_mergeSort_fresh st.rows (insertedRow st inp)
      (fun r hr => hfresh r hr)
  · rw [hs, hperm.countP_eq, List.countP_append]
    have h0 : st.rows.countP (fun r => r.id == st.nextId) = 0 := by
      rw [List.countP_eq_zero]
      intro r hr
      simp [hid r hr]
    simp [h0, List.countP_cons, insertedRow]
  · intro r hr
    rw [hs] at hr
    rcases List.mem_append.mp (hperm.mem_iff.mp hr) with h1 | h2
    · exact Nat.le_of_lt (hfresh r h1)
    · have h3 : r = insertedRow st inp := by simpa using h2
      simp [h3]

/-- C1 witness: saving the demo input into the store holding one older
row with a smaller rowid yields the saved row first, and the sequence
holds exactly one row with the new rowid. -/
theorem save_then_list_new_item_first_witness :
    saveItem DbStatus.ok badStore demoInput =
      Except.ok (insertRow badStore demoInput) ∧
    (searchItems DbStatus.ok (insertRow badStore demoInput)).head? =
      some (insertedRow badStore demoInput) ∧
    (searchItems DbStatus.ok (insertRow badStore demoInput)).countP
      (fun r => r.id == badStore.nextId) = 1 := by
  have h := save_then_list_new_item_first badStore demoInput
    (by intro r hr; simp [badStore] at hr; subst hr; decide)
    (by intro r hr; simp [badStore] at hr; subst hr; decide)
  exact ⟨h.1, h.2.1, h.2.2.1⟩

end Sprig
